import Mathlib

/-!
Shallow embedding of the core of the `mcp-sqlify` repository:
the SQLite converter (`src/data_manager/sqlite_converter.py`), the
WikiSQL schema loader (`src/schema_loader/wikisql_loader.py`), the
dataset access layer (`src/data_manager/wikisql_dataset.py`) and the
SQL generator (`src/agent/core.py`), together with theorems settling
the specification's claims about them.
-/

namespace McpSqlify

/-- A single-quote character as a one-character string. -/
def sq : String := String.singleton (Char.ofNat 39)

/-- A scalar cell value of a WikiSQL row, discriminated exactly as the
converter's Python code does: a Python `str`, the Python `None`, or any
other value carried by its `str()` rendering. -/
inductive Value where
  | vstr (s : String)
  | vnull
  | vother (rendered : String)
deriving DecidableEq, Repr

/-- The `table` field of a WikiSQL example: parallel `header` and `types`
sequences plus the data rows. -/
structure Table where
  header : List String
  types : List String
  rows : List (List Value)
deriving DecidableEq, Repr

/-- The `sql` field of a WikiSQL example; both keys are optional in the
source dictionaries, so they are modelled as `Option`. -/
structure SqlInfo where
  table_id : Option String
  human_readable : Option String
deriving DecidableEq, Repr

/-- The `id` field of an example: a string, a Python integer, or absent. -/
inductive ExId where
  | estr (s : String)
  | eint (n : Int)
  | enone
deriving DecidableEq, Repr

/-- One WikiSQL example as consumed by the converter and the loaders. -/
structure Example where
  id : ExId
  question : String
  table : Table
  sql : SqlInfo
deriving DecidableEq, Repr

/-- Fuel-driven core of Python `str.replace`: replaces non-overlapping
occurrences of `pat` from left to right. Any `fuel ≥ s.length` gives the
Python semantics for a nonempty `pat`, since every step consumes at least
one character. -/
def replaceAux (pat rep : List Char) : Nat → List Char → List Char
  | 0, _ => []
  | _ + 1, [] => []
  | fuel + 1, c :: rest =>
    if pat ≠ [] ∧ pat.isPrefixOf (c :: rest) then
      rep ++ replaceAux pat rep fuel ((c :: rest).drop pat.length)
    else
      c :: replaceAux pat rep fuel rest

/-- Shallow embedding of Python `str.replace` for nonempty patterns. -/
def pyReplace (s pat rep : String) : String :=
  String.mk (replaceAux pat.data rep.data s.data.length s.data)

/-- Shallow embedding of Python `str.split()` with no argument: split on
whitespace runs, discarding empty fragments. -/
def pySplit (s : String) : List String :=
  (s.split (fun c => c.isWhitespace)).filter (fun t => ¬ t.isEmpty)

/-- The converter's `SQLiteConverter.TYPE_MAP` dictionary. -/
def TYPE_MAP (t : String) : Option String :=
  if t = "text" then some "TEXT"
  else if t = "number" then some "INTEGER"
  else if t = "real" then some "REAL"
  else if t = "date" then some "TEXT"
  else none

/-- The converter's `_get_sql_type`: look the lower-cased tag up in
`TYPE_MAP`, defaulting to `TEXT`. -/
def get_sql_type (wikisql_type : String) : String :=
  (TYPE_MAP wikisql_type.toLower).getD "TEXT"

/-- The converter's `generate_table_name`. The Python built-in `hash` is
process-dependent, so it is a parameter `pyHash`; `abs ... % 10000` is
folded into `pyHash ... % 10000` over `Nat`. -/
def generate_table_name (pyHash : List String → Nat) (ex : Example) : String :=
  let headers := ex.table.header
  let keywords := (pySplit ex.question).take 3
  "ex_" ++ toString (pyHash (headers ++ keywords) % 10000)

/-- The column-definition list built by the loop inside
`generate_create_table_sql`: one entry per `(header, type)` pair of
`enumerate(zip(headers, types))`. -/
def createColumns (ex : Example) : List String :=
  ((ex.table.header.zip ex.table.types).enum).map (fun p =>
    let sql_type := get_sql_type p.2.2
    if p.1 = 0 ∧ p.2.2.toLower = "number" then
      "\"" ++ p.2.1 ++ "\" " ++ sql_type ++ " PRIMARY KEY"
    else
      "\"" ++ p.2.1 ++ "\" " ++ sql_type)

/-- The converter's `generate_create_table_sql`. -/
def generate_create_table_sql (ex : Example) (table_name : String) : String :=
  "CREATE TABLE IF NOT EXISTS \"" ++ table_name ++ "\" (\n  "
    ++ String.intercalate ",\n  " (createColumns ex)
    ++ "\n);"

/-- The per-value rendering inside `generate_insert_sql`: strings are
single-quote-wrapped with internal single quotes doubled, `None` becomes
`NULL`, anything else is its `str()` rendering. -/
def renderValue (v : Value) : String :=
  match v with
  | .vstr s => sq ++ pyReplace s sq (sq ++ sq) ++ sq
  | .vnull => "NULL"
  | .vother r => r

/-- The converter's `generate_insert_sql`: one `INSERT` statement per row,
in row order. -/
def generate_insert_sql (ex : Example) (table_name : String) : List String :=
  ex.table.rows.map (fun row =>
    let values_str := String.intercalate ", " (row.map renderValue)
    let headers_str :=
      String.intercalate ", " (ex.table.header.map (fun h => "\"" ++ h ++ "\""))
    "INSERT INTO \"" ++ table_name ++ "\" (" ++ headers_str ++ ") VALUES ("
      ++ values_str ++ ");")

/-- One materialized table inside the relational store: the executed
CREATE statement (its schema) and the inserted rows, represented by the
INSERT statements executed against it, in execution order. -/
structure StoredTable where
  create_sql : String
  rows : List String
deriving DecidableEq, Repr

/-- The relational store: a map from table name to its current state. -/
abbrev Store := String → Option StoredTable

/-- A store holding no tables. -/
def emptyStore : Store := fun _ => none

/-- Effect of `DROP TABLE IF EXISTS name`. -/
def drop_table (st : Store) (name : String) : Store :=
  fun n => if n = name then none else st n

/-- Effect of executing a `CREATE TABLE IF NOT EXISTS` statement: when the
table already exists nothing changes, otherwise an empty table with the
given schema appears. -/
def create_table (st : Store) (name create_sql : String) : Store :=
  fun n => if n = name then some ((st name).getD ⟨create_sql, []⟩) else st n

/-- Effect of executing one INSERT statement against a table. -/
def exec_insert (st : Store) (name stmt : String) : Store :=
  fun n =>
    if n = name then (st n).map (fun t => ⟨t.create_sql, t.rows ++ [stmt]⟩)
    else st n

/-- The `sqlite_info` part of the converter's result dictionary. -/
structure SqliteInfo where
  table_name : String
  db_path : String
  create_sql : String
  sample_query : String
  target_sql : Option String
deriving DecidableEq, Repr

/-- The converter's result dictionary for one example. -/
structure ConversionResult where
  raw_data : Example
  sqlite_info : SqliteInfo
deriving DecidableEq, Repr

/-- The converter's `convert_example`: derive the table name and the
CREATE/INSERT statements, drop any existing table of that name, create
the table, execute every INSERT in row order, commit, and assemble the
result dictionary (with `target_sql` obtained by a plain `str.replace`
of `table` inside the human-readable SQL, when that is present). -/
def convert_example (pyHash : List String → Nat) (db_path : String)
    (ex : Example) (store : Store) : ConversionResult × Store :=
  let table_name := generate_table_name pyHash ex
  let create_sql := generate_create_table_sql ex table_name
  let insert_sqls := generate_insert_sql ex table_name
  let store1 := drop_table store table_name
  let store2 := create_table store1 table_name create_sql
  let store3 := insert_sqls.foldl (fun st s => exec_insert st table_name s) store2
  let sample_query := "SELECT * FROM \"" ++ table_name ++ "\" LIMIT 5;"
  let target_sql :=
    ex.sql.human_readable.map (fun raw => pyReplace raw "table" table_name)
  (⟨ex, ⟨table_name, db_path, create_sql, sample_query, target_sql⟩⟩, store3)

/-- One normalized column description emitted by the schema loader. -/
structure ColumnSchema where
  name : String
  type : String
  not_null : Bool
  is_primary_key : Bool
deriving DecidableEq, Repr

/-- One foreign-key edge of a normalized schema (the WikiSQL loader never
produces any). -/
structure ForeignKeyEdge where
  column : String
  referenced_table : String
  referenced_column : String
deriving DecidableEq, Repr

/-- One normalized table description emitted by the schema loader. -/
structure TableSchema where
  name : String
  columns : List ColumnSchema
  foreign_keys : List ForeignKeyEdge
deriving DecidableEq, Repr

/-- The normalized schema document: `{"tables": [...]}`. -/
structure SchemaDocument where
  tables : List TableSchema
deriving DecidableEq, Repr

/-- The schema loader's private `type_map` dictionary inside
`_wikisql_type_to_sqlite` (a copy of the converter's table). -/
def loader_type_map (t : String) : Option String :=
  if t = "text" then some "TEXT"
  else if t = "number" then some "INTEGER"
  else if t = "real" then some "REAL"
  else if t = "date" then some "TEXT"
  else none

/-- The loader's `_wikisql_type_to_sqlite`. -/
def wikisql_type_to_sqlite (wikisql_type : String) : String :=
  (loader_type_map wikisql_type.toLower).getD "TEXT"

/-- The loader's `_get_column_info`: one `ColumnSchema` per pair of
`enumerate(zip(headers, types))`, with `not_null` always true and
`is_primary_key` true exactly for index 0 with a (lower-cased) type tag
`number`. -/
def get_column_info (ex : Example) : List ColumnSchema :=
  ((ex.table.header.zip ex.table.types).enum).map (fun p =>
    { name := p.2.1
      type := wikisql_type_to_sqlite p.2.2
      not_null := true
      is_primary_key := decide (p.1 = 0 ∧ p.2.2.toLower = "number") })

/-- The loader's `load_schema`: columns from `_get_column_info`, table
name from `sql.table_id` when present, else the literal `"table"`, and an
always-empty `foreign_keys` list. -/
def load_schema (ex : Example) : SchemaDocument :=
  let columns := get_column_info ex
  let table_name := (ex.sql.table_id).getD "table"
  ⟨[⟨table_name, columns, []⟩]⟩

/-- The exception classes the dataset access layer distinguishes. -/
inductive PyError where
  | valueError (msg : String)
  | indexError (msg : String)
  | runtimeError (msg : String)
deriving DecidableEq, Repr

/-- Python `str(e)` on one of the modelled exceptions: its message. -/
def pyStrError : PyError → String
  | .valueError m => m
  | .indexError m => m
  | .runtimeError m => m

/-- The provider's `DatasetDict`: named splits in dictionary order. -/
abbrev DatasetDict := List (String × List Example)

/-- Python `list(dataset_dict.keys())`. -/
def ddKeys (dd : DatasetDict) : List String := dd.map (fun p => p.1)

/-- Python `repr` of a list of strings, as interpolated into f-strings:
`[` + comma-separated single-quoted items + `]`. -/
def pyListRepr (keys : List String) : String :=
  "[" ++ String.intercalate ", " (keys.map (fun k => sq ++ k ++ sq)) ++ "]"

/-- The invalid-split-name message built by the dataset access layer,
listing the valid splits. -/
def invalid_split_msg (split hf_split : String) (dd : DatasetDict) : String :=
  "無效的分割名稱: " ++ split ++ " (HF: " ++ hf_split ++ ")\n有效的分割為: "
    ++ pyListRepr (ddKeys dd)

/-- The out-of-range message built by `get_example`, reporting the number
of examples in the split. -/
def index_out_of_range_msg (split : String) (index : Int) (n : Nat) : String :=
  "索引 " ++ toString index ++ " 超出範圍\n" ++ split ++ " 資料集有 "
    ++ toString n ++ " 個範例"

/-- The id normalization inside the dataset access layer: a numeric `id`
is coerced to its canonical string form. -/
def normalize_id (ex : Example) : Example :=
  match ex.id with
  | .eint n => { ex with id := .estr (toString n) }
  | _ => ex

/-- The instance's `data_cache` dictionary. -/
abbrev Cache := List (String × List Example)

/-- Python dictionary assignment `cache[k] = v`: replace the entry when
the key exists, append it otherwise. -/
def cacheInsert (c : Cache) (k : String) (v : List Example) : Cache :=
  match c with
  | [] => [(k, v)]
  | (k0, v0) :: rest =>
    if k0 = k then (k, v) :: rest else (k0, v0) :: cacheInsert rest k v

/-- Python `f"{limit}"` for an `Optional[int]`. -/
def limitRepr : Option Int → String
  | none => "None"
  | some n => toString n

/-- The cache key `f"{split}_{limit}"` used by `load_split`. -/
def cache_key (split : String) (limit : Option Int) : String :=
  split ++ "_" ++ limitRepr limit

/-- The body of the `try` block of the dataset access layer's
`load_split` (everything after the cache check): resolve the split
alias, look the split up in the provider's dictionary (raising a
`ValueError` listing the valid splits when absent), apply the optional
limit, and materialize the examples with their ids normalized. The
provider (`_load_dataset`) is a parameter: either the loaded
`DatasetDict` or the message of the `RuntimeError` it raised. -/
def load_split_attempt (provider : Except String DatasetDict)
    (split : String) (limit : Option Int) : Except PyError (List Example) :=
  let hf_split := if split = "dev" then "validation" else split
  match provider with
  | .error msg => .error (.runtimeError msg)
  | .ok dd =>
    match dd.lookup hf_split with
    | none => .error (.valueError (invalid_split_msg split hf_split dd))
    | some ds =>
      let selected :=
        match limit with
        | some l => ds.take (min l (ds.length : Int)).toNat
        | none => ds
      .ok (selected.map normalize_id)

/-- The dataset access layer's `load_split`: serve a cache hit directly;
otherwise run the `try` body, store a successful result in the cache, and
wrap ANY raised error — including the invalid-split `ValueError` — into a
generic `RuntimeError` (the blanket `except Exception` clause). -/
def load_split (provider : Except String DatasetDict) (cache : Cache)
    (split : String) (limit : Option Int) :
    Except PyError (List Example × Cache) :=
  let key := cache_key split limit
  match cache.lookup key with
  | some data => .ok (data, cache)
  | none =>
    match load_split_attempt provider split limit with
    | .ok data => .ok (data, cacheInsert cache key data)
    | .error e =>
      .error (.runtimeError ("載入 " ++ split ++ " 分割失敗: " ++ pyStrError e))

/-- The dataset access layer's `get_example`. Its `try` block re-raises
`ValueError` and `IndexError` unchanged and wraps anything else into a
`RuntimeError`. -/
def get_example (provider : Except String DatasetDict) (split : String)
    (index : Int) : Except PyError Example :=
  let hf_split := if split = "dev" then "validation" else split
  let attempt : Except PyError Example :=
    match provider with
    | .error msg => .error (.runtimeError msg)
    | .ok dd =>
      match dd.lookup hf_split with
      | none => .error (.valueError (invalid_split_msg split hf_split dd))
      | some ds =>
        if h : index < 0 ∨ (ds.length : Int) ≤ index then
          .error (.indexError (index_out_of_range_msg split index ds.length))
        else
          .ok (normalize_id (ds.get ⟨index.toNat, by omega⟩))
  match attempt with
  | .error (.valueError m) => .error (.valueError m)
  | .error (.indexError m) => .error (.indexError m)
  | .error e => .error (.runtimeError ("取得範例失敗: " ++ pyStrError e))
  | .ok ex => .ok ex

/-- Python truthiness of the `OPENAI_API_KEY` configuration value:
falsy when unset or the empty string. -/
def pyFalsyKey : Option String → Bool
  | none => true
  | some s => s.isEmpty

/-- The configuration-error message raised by `SQLGenerator.__init__`. -/
def missing_key_msg : String :=
  "OPENAI_API_KEY is not configured. Please set it in your .env file."

/-- The guard of `SQLGenerator.__init__`: a `ValueError` when no service
credential is available, success otherwise. -/
def sql_generator_init (api_key : Option String) : Except PyError Unit :=
  if pyFalsyKey api_key then .error (.valueError missing_key_msg)
  else .ok ()

/-- `SQLGenerator.generate`: the prompt chain is a parameter producing
either the completion text or a failure message; a failure is caught and
converted into an in-band error string rather than raised. -/
def generate (chain : String → String → Except String String)
    (question schema : String) : String :=
  match chain question schema with
  | .ok sql_query => sql_query
  | .error e => "Error generating SQL: " ++ e

/-- The fixed type table as the specification states it:
`{text→TEXT, number→INTEGER, real→REAL, date→TEXT, default→TEXT}`. -/
def spec_type_table (tag : String) : String :=
  if tag = "text" then "TEXT"
  else if tag = "number" then "INTEGER"
  else if tag = "real" then "REAL"
  else if tag = "date" then "TEXT"
  else "TEXT"

/-- An identifier character: letters, digits, or underscore. -/
def isWordChar (c : Char) : Bool := c.isAlphanum || c == Char.ofNat 95

/-- Fuel-driven core of the word-boundary-aware substitution described by
the specification: a maximal run of identifier characters is replaced only
when the whole run equals the target word. -/
def replaceStandaloneAux (target rep : List Char) : Nat → List Char → List Char
  | 0, _ => []
  | _ + 1, [] => []
  | fuel + 1, c :: rest =>
    if isWordChar c then
      (if (c :: rest).takeWhile isWordChar = target then rep
       else (c :: rest).takeWhile isWordChar)
        ++ replaceStandaloneAux target rep fuel ((c :: rest).dropWhile isWordChar)
    else
      c :: replaceStandaloneAux target rep fuel rest

/-- The substitution the specification describes for `target_sql`:
replace `target` by `rep` exactly where `target` occurs as a standalone
word, leaving occurrences inside longer identifiers unchanged. Stated for
comparison against the converter's actual behavior. -/
def replace_standalone_word (s target rep : String) : String :=
  String.mk (replaceStandaloneAux target.data rep.data s.data.length s.data)

/-- The concrete example of the specification's scenario: header
`["id","name","amount","date"]`, types `["number","text","real","text"]`,
one row `["1","Alice","120.5","2025-04-01"]`. -/
def exC34 : Example :=
  { id := .estr "0"
    question := "How many transactions"
    table :=
      { header := ["id", "name", "amount", "date"]
        types := ["number", "text", "real", "text"]
        rows := [[.vstr "1", .vstr "Alice", .vstr "120.5", .vstr "2025-04-01"]] }
    sql := { table_id := none, human_readable := none } }

/-- An example whose human-readable SQL contains the word `table` both as
a standalone word and inside the longer identifier `tabletop`. -/
def exC2 : Example :=
  { id := .estr "1"
    question := "what is x"
    table := { header := ["a"], types := ["text"], rows := [[.vstr "v"]] }
    sql := { table_id := none, human_readable := some "SELECT tabletop FROM table" } }

/-- A WikiSQL-style example with no `sql.table_id`. -/
def exC6 : Example :=
  { id := .estr "2"
    question := "q"
    table := { header := ["a", "b"], types := ["text", "number"], rows := [] }
    sql := { table_id := none, human_readable := none } }

/-- An example whose `header` and `types` sequences have different
lengths (three headers, one type tag). -/
def exC10 : Example :=
  { id := .estr "3"
    question := "q"
    table := { header := ["a", "b", "c"], types := ["text"], rows := [] }
    sql := { table_id := none, human_readable := none } }

/-- A concrete stand-in for Python's process-dependent `hash`. -/
def hash0 : List String → Nat := fun _ => 0

/-- A concrete provider dictionary with the three WikiSQL splits. -/
def ddDemo : DatasetDict :=
  [("train", [exC6]), ("validation", [exC34, exC2, exC6]), ("test", [])]

/-! Helper lemmas shared by the claim theorems. -/

theorem get_sql_type_eq_spec (t : String) :
    get_sql_type t = spec_type_table t.toLower := by
  unfold get_sql_type TYPE_MAP spec_type_table
  split_ifs <;> rfl

theorem wikisql_type_to_sqlite_eq_spec (t : String) :
    wikisql_type_to_sqlite t = spec_type_table t.toLower := by
  unfold wikisql_type_to_sqlite loader_type_map spec_type_table
  split_ifs <;> rfl

theorem createColumns_length (ex : Example) :
    (createColumns ex).length = min ex.table.header.length ex.table.types.length := by
  simp [createColumns]

theorem get_column_info_length (ex : Example) :
    (get_column_info ex).length = min ex.table.header.length ex.table.types.length := by
  simp [get_column_info]

theorem createColumns_getElem (ex : Example) (i : Nat) (hcol ty : String)
    (h1 : ex.table.header[i]? = some hcol) (h2 : ex.table.types[i]? = some ty) :
    (createColumns ex)[i]?
      = some (if i = 0 ∧ ty.toLower = "number" then
                "\"" ++ hcol ++ "\" " ++ get_sql_type ty ++ " PRIMARY KEY"
              else
                "\"" ++ hcol ++ "\" " ++ get_sql_type ty) := by
  unfold createColumns
  rw [List.getElem?_map, List.getElem?_enum]
  have hz : (ex.table.header.zip ex.table.types)[i]? = some (hcol, ty) := by
    rw [List.getElem?_zip_eq_some]
    exact ⟨h1, h2⟩
  rw [hz]
  rfl

theorem get_column_info_getElem (ex : Example) (i : Nat) (hcol ty : String)
    (h1 : ex.table.header[i]? = some hcol) (h2 : ex.table.types[i]? = some ty) :
    (get_column_info ex)[i]?
      = some ⟨hcol, wikisql_type_to_sqlite ty, true,
              decide (i = 0 ∧ ty.toLower = "number")⟩ := by
  unfold get_column_info
  rw [List.getElem?_map, List.getElem?_enum]
  have hz : (ex.table.header.zip ex.table.types)[i]? = some (hcol, ty) := by
    rw [List.getElem?_zip_eq_some]
    exact ⟨h1, h2⟩
  rw [hz]
  rfl

theorem prefix_data_append (p s t : String) (h : p.data <+: s.data) :
    p.data <+: (s ++ t).data := by
  have hst : (s ++ t).data = s.data ++ t.data := rfl
  rw [hst]
  exact h.trans ⟨t.data, rfl⟩

theorem exec_insert_foldl_at_name (l : List String) (name : String)
    (st : Store) (c : String) (rows : List String)
    (h : st name = some ⟨c, rows⟩) :
    (l.foldl (fun acc s => exec_insert acc name s) st) name
      = some ⟨c, rows ++ l⟩ := by
  induction l generalizing st rows with
  | nil => simpa using h
  | cons a rest ih =>
    simp only [List.foldl_cons]
    have h2 : (exec_insert st name a) name = some ⟨c, rows ++ [a]⟩ := by
      simp [exec_insert, h]
    have h3 := ih (exec_insert st name a) (rows ++ [a]) h2
    simpa [List.append_assoc] using h3

theorem convert_store_at_name (pyHash : List String → Nat) (db_path : String)
    (ex : Example) (store : Store) :
    ((convert_example pyHash db_path ex store).2) (generate_table_name pyHash ex)
      = some ⟨generate_create_table_sql ex (generate_table_name pyHash ex),
              generate_insert_sql ex (generate_table_name pyHash ex)⟩ := by
  have h0 : (create_table (drop_table store (generate_table_name pyHash ex))
      (generate_table_name pyHash ex)
      (generate_create_table_sql ex (generate_table_name pyHash ex)))
      (generate_table_name pyHash ex)
      = some ⟨generate_create_table_sql ex (generate_table_name pyHash ex), []⟩ := by
    simp [create_table, drop_table]
  have h1 := exec_insert_foldl_at_name
      (generate_insert_sql ex (generate_table_name pyHash ex))
      (generate_table_name pyHash ex) _ _ [] h0
  simpa [convert_example] using h1

theorem lookup_cacheInsert_self (c : Cache) (k : String) (v : List Example) :
    (cacheInsert c k v).lookup k = some v := by
  induction c with
  | nil => simp [cacheInsert, List.lookup]
  | cons p rest ih =>
    by_cases h : p.1 = k
    · simp [cacheInsert, h, List.lookup]
    · have hb : (k == p.1) = false :=
        beq_eq_false_iff_ne.mpr (fun hh => h hh.symm)
      simp only [cacheInsert, if_neg h, List.lookup, hb]
      exact ih

theorem lookup_cacheInsert_ne (c : Cache) (k k2 : String) (v : List Example)
    (h : k ≠ k2) : (cacheInsert c k2 v).lookup k = c.lookup k := by
  have hb : (k == k2) = false := beq_eq_false_iff_ne.mpr h
  induction c with
  | nil => simp [cacheInsert, List.lookup, hb]
  | cons p rest ih =>
    by_cases hp : p.1 = k2
    · subst hp
      simp [cacheInsert, List.lookup, hb]
    · simp only [cacheInsert, if_neg hp]
      cases hkp : (k == p.1) <;> simp [List.lookup, hkp, ih]

/-! Claim theorems. -/

/-- C1: the claim fails on the code — for an unknown split name,
`load_split` does NOT let the validation error propagate unchanged. The
`ValueError` is raised inside the `try` block and the blanket
`except Exception` catches it and re-raises a generic `RuntimeError`
wrapping its message (even though the function's own docstring documents
`ValueError` for an invalid split name, and the sibling methods
`get_example` and `search_examples` re-raise it unchanged). Evaluated at
the failing input: split `"nonexistent"`, no limit, empty cache, provider
with splits train/validation/test. -/
theorem c1_load_split_wraps_validation_error :
    load_split (.ok ddDemo) [] "nonexistent" none
      = .error (.runtimeError ("載入 nonexistent 分割失敗: "
          ++ invalid_split_msg "nonexistent" "nonexistent" ddDemo))
    ∧ ¬ ∃ m, load_split (.ok ddDemo) [] "nonexistent" none
        = .error (.valueError m) := by
  have h1 : load_split (.ok ddDemo) [] "nonexistent" none
      = .error (.runtimeError ("載入 nonexistent 分割失敗: "
          ++ invalid_split_msg "nonexistent" "nonexistent" ddDemo)) := rfl
  refine ⟨h1, ?_⟩
  rintro ⟨m, hm⟩
  rw [h1] at hm
  simp at hm

/-- C2 counterexample: `target_sql` is produced by a blind substring
replace, not the standalone-word substitution the claim states. On the
human-readable SQL `SELECT tabletop FROM table` with derived table name
`ex_0`, the code also rewrites the occurrence inside the longer
identifier `tabletop`, yielding `SELECT ex_0top FROM ex_0`, while the
claimed standalone-word substitution yields `SELECT tabletop FROM ex_0`. -/
theorem c2_target_sql_standalone_cex :
    ((convert_example hash0 "db" exC2 emptyStore).1).sqlite_info.target_sql
      = some "SELECT ex_0top FROM ex_0"
    ∧ replace_standalone_word "SELECT tabletop FROM table" "table" "ex_0"
      = "SELECT tabletop FROM ex_0"
    ∧ ((convert_example hash0 "db" exC2 emptyStore).1).sqlite_info.target_sql
      ≠ some (replace_standalone_word "SELECT tabletop FROM table" "table" "ex_0") :=
  ⟨by decide, by decide, by decide⟩

/-- C2 (amended): whenever the ground-truth SQL has a human-readable
form, the returned `target_sql` is the human-readable SQL with EVERY
substring occurrence of `table` replaced by the derived table name —
including occurrences inside longer identifiers or string literals
(Python `str.replace` semantics). -/
theorem c2_target_sql_blind_replace (pyHash : List String → Nat)
    (db_path : String) (ex : Example) (store : Store) (raw : String)
    (h : ex.sql.human_readable = some raw) :
    ((convert_example pyHash db_path ex store).1).sqlite_info.target_sql
      = some (pyReplace raw "table" (generate_table_name pyHash ex)) := by
  simp [convert_example, h]

/-- C2 witness: the amended claim instantiated at a concrete example. -/
theorem c2_target_sql_blind_replace_witness :
    ((convert_example hash0 "db" exC2 emptyStore).1).sqlite_info.target_sql
      = some (pyReplace "SELECT tabletop FROM table" "table"
          (generate_table_name hash0 exC2)) :=
  c2_target_sql_blind_replace hash0 "db" exC2 emptyStore
    "SELECT tabletop FROM table" rfl

/-- C5: materialization is idempotent in content. `convert_example`
unconditionally drops the table, recreates it from the deterministic
CREATE statement and replays every INSERT in row order, so converting the
same example twice against any store leaves the derived table with the
same schema and the same rows (hence the same row count) as after the
first conversion, whatever the store held before. -/
theorem c5_convert_idempotent (pyHash : List String → Nat) (db_path : String)
    (ex : Example) (store : Store) :
    ((convert_example pyHash db_path ex
        ((convert_example pyHash db_path ex store).2)).2)
      (generate_table_name pyHash ex)
      = ((convert_example pyHash db_path ex store).2) (generate_table_name pyHash ex)
    ∧ ((convert_example pyHash db_path ex store).2) (generate_table_name pyHash ex)
      = some ⟨generate_create_table_sql ex (generate_table_name pyHash ex),
              generate_insert_sql ex (generate_table_name pyHash ex)⟩ := by
  have h1 := convert_store_at_name pyHash db_path ex store
  have h2 := convert_store_at_name pyHash db_path ex
    ((convert_example pyHash db_path ex store).2)
  exact ⟨h2.trans h1.symm, h1⟩

/-- C9: construction raises a configuration error (`ValueError`) when no
service credential is available, and on a completion-service failure
`generate` does not raise: it returns a descriptive error string carrying
the failure prefix `Error generating SQL: `. -/
theorem c9_sql_generator_error_contract :
    (∀ api_key, pyFalsyKey api_key = true →
        sql_generator_init api_key = .error (.valueError missing_key_msg))
    ∧ sql_generator_init none = .error (.valueError missing_key_msg)
    ∧ (∀ (chain : String → String → Except String String)
        (question schema e : String),
        chain question schema = .error e →
          generate chain question schema = "Error generating SQL: " ++ e
          ∧ ("Error generating SQL: ").data <+: (generate chain question schema).data) := by
  refine ⟨?_, rfl, ?_⟩
  · intro k hk
    simp [sql_generator_init, hk]
  · intro chain q s e h
    have hg : generate chain q s = "Error generating SQL: " ++ e := by
      simp [generate, h]
    refine ⟨hg, ?_⟩
    rw [hg]
    exact prefix_data_append _ _ _ ⟨[], List.append_nil _⟩

/-- C9 witness: a concrete failing completion service yields the in-band
error string. -/
theorem c9_sql_generator_error_contract_witness :
    generate (fun _ _ => .error "boom") "q" "s" = "Error generating SQL: boom" :=
  (c9_sql_generator_error_contract.2.2 (fun _ _ => Except.error "boom")
    "q" "s" "boom" rfl).1

/-- C10: when `header` and `types` have different lengths, both the
CREATE-statement generator and the from-example schema loader stay total
and silently emit exactly `min (len header) (len types)` column
definitions — the parallel-length invariant is never validated. Checked
generically and at a concrete example with three headers and one type. -/
theorem c10_mismatched_lengths_truncate (ex : Example) :
    (createColumns ex).length = min ex.table.header.length ex.table.types.length
    ∧ (get_column_info ex).length = min ex.table.header.length ex.table.types.length
    ∧ (load_schema ex).tables.length = 1
    ∧ (createColumns exC10).length = 1
    ∧ ((load_schema exC10).tables[0]?).map (fun t => t.columns.length) = some 1 :=
  ⟨createColumns_length ex, get_column_info_length ex, rfl, by decide, by decide⟩

/-- C7: `load_split` caches under the key `f"{split}_{limit}"`. A cache
hit returns exactly the stored sequence with the cache untouched, for
EVERY provider — the result does not depend on the provider at all, so
nothing is re-fetched. A successful call stores the returned sequence
under its key, so an identical second call returns that very sequence.
The keys for `('dev', 2)` and `('dev', 3)` are `dev_2` and `dev_3`, which
differ, and populating one key never disturbs another key's entry. -/
theorem c7_load_split_cache_spec :
    (∀ (provider : Except String DatasetDict) (cache : Cache)
        (split : String) (limit : Option Int) (data : List Example),
        cache.lookup (cache_key split limit) = some data →
        load_split provider cache split limit = .ok (data, cache))
    ∧ (∀ (provider : Except String DatasetDict) (cache : Cache)
        (split : String) (limit : Option Int) (data : List Example)
        (cache2 : Cache),
        load_split provider cache split limit = .ok (data, cache2) →
        cache2.lookup (cache_key split limit) = some data)
    ∧ cache_key "dev" (some 2) = "dev_2"
    ∧ cache_key "dev" (some 3) = "dev_3"
    ∧ cache_key "dev" (some 2) ≠ cache_key "dev" (some 3)
    ∧ (∀ (cache : Cache) (k k2 : String) (v : List Example), k ≠ k2 →
        (cacheInsert cache k2 v).lookup k = cache.lookup k) := by
  refine ⟨?_, ?_, rfl, rfl, by decide,
    fun c k k2 v h => lookup_cacheInsert_ne c k k2 v h⟩
  · intro provider cache split limit data h
    unfold load_split
    dsimp only
    rw [h]
  · intro provider cache split limit data cache2 h
    unfold load_split at h
    dsimp only at h
    cases hl : cache.lookup (cache_key split limit) with
    | some d =>
      rw [hl] at h
      dsimp only at h
      simp only [Except.ok.injEq, Prod.mk.injEq] at h
      obtain ⟨h1, h2⟩ := h
      subst h1
      subst h2
      exact hl
    | none =>
      rw [hl] at h
      dsimp only at h
      cases ha : load_split_attempt provider split limit with
      | ok d =>
        rw [ha] at h
        dsimp only at h
        simp only [Except.ok.injEq, Prod.mk.injEq] at h
        obtain ⟨h1, h2⟩ := h
        subst h1
        subst h2
        apply lookup_cacheInsert_self
      | error e =>
        rw [ha] at h
        dsimp only at h
        simp at h

/-- C7 witness: a concrete cache hit for `('dev', 2)` is served back
unchanged. -/
theorem c7_load_split_cache_spec_witness :
    load_split (.ok ddDemo) [("dev_2", [exC6])] "dev" (some 2)
      = .ok ([exC6], [("dev_2", [exC6])]) :=
  c7_load_split_cache_spec.1 (.ok ddDemo) [("dev_2", [exC6])] "dev" (some 2)
    [exC6] rfl

/-- C8: `get_example(split, i)` with `i` outside `[0, N)` fails with the
bounds error reporting the valid range (an `IndexError`, re-raised
unchanged by the explicit `except (ValueError, IndexError)` clause, not
wrapped into the generic `RuntimeError`); with `i` inside the range it
returns exactly the element found at position `i` of the sequence that
`load_split` produces for the same split without a limit. -/
theorem c8_get_example_spec (dd : DatasetDict) (split : String) (index : Int)
    (ds : List Example)
    (hds : dd.lookup (if split = "dev" then "validation" else split) = some ds) :
    ((index < 0 ∨ (ds.length : Int) ≤ index) →
        get_example (.ok dd) split index
          = .error (.indexError (index_out_of_range_msg split index ds.length)))
    ∧ (∀ (loaded : List Example) (cache2 : Cache),
        0 ≤ index → index < (ds.length : Int) →
        load_split (.ok dd) [] split none = .ok (loaded, cache2) →
        ∃ e, get_example (.ok dd) split index = .ok e
          ∧ loaded[index.toNat]? = some e) := by
  constructor
  · intro hcond
    simp only [get_example]
    rw [hds]
    dsimp only
    rw [dif_pos hcond]
  · intro loaded cache2 h0 hlt hload
    have hnot : ¬ (index < 0 ∨ (ds.length : Int) ≤ index) := by omega
    have hin : index.toNat < ds.length := by omega
    have hge : get_example (.ok dd) split index
        = .ok (normalize_id (ds.get ⟨index.toNat, hin⟩)) := by
      simp only [get_example]
      rw [hds]
      dsimp only
      rw [dif_neg hnot]
    have hl : loaded = ds.map normalize_id := by
      simp only [load_split, load_split_attempt, List.lookup] at hload
      rw [hds] at hload
      dsimp only at hload
      simp only [Except.ok.injEq, Prod.mk.injEq] at hload
      exact hload.1.symm
    refine ⟨normalize_id (ds.get ⟨index.toNat, hin⟩), hge, ?_⟩
    rw [hl, List.getElem?_map]
    have hds2 : ds[index.toNat]? = some (ds.get ⟨index.toNat, hin⟩) := by
      rw [List.getElem?_eq_getElem hin]
      rfl
    rw [hds2]
    rfl

/-- C8 witness: a concrete out-of-range index yields the bounds error
unchanged. -/
theorem c8_get_example_spec_witness :
    get_example (.ok ddDemo) "train" 10
      = .error (.indexError (index_out_of_range_msg "train" 10 1)) :=
  (c8_get_example_spec ddDemo "train" 10 [exC6] rfl).1 (by decide)

theorem quoted_name_starts (hcol : String) (x : List Char) :
    ("\"" ++ hcol ++ "\"").data <+: ("\"" ++ hcol ++ "\" ").data ++ x := by
  have e : ("\"" ++ hcol ++ "\" ").data ++ x
      = ("\"" ++ hcol ++ "\"").data ++ (" ".data ++ x) := by
    show (("\"".data ++ hcol.data) ++ "\" ".data) ++ x
        = (("\"".data ++ hcol.data) ++ "\"".data) ++ (" ".data ++ x)
    simp only [List.append_assoc]
    rfl
  rw [e]
  exact ⟨" ".data ++ x, rfl⟩

/-- C3: the generated CREATE statement decomposes as the
`CREATE TABLE IF NOT EXISTS` header followed by the comma-joined column
definitions; with parallel `header`/`types` of length `N` there are
exactly `N` column definitions, in header order, the `i`-th being the
double-quoted `i`-th header name followed by the type obtained from the
fixed table `{text→TEXT, number→INTEGER, real→REAL, date→TEXT,
default→TEXT}` applied to the lower-cased tag, with ` PRIMARY KEY`
appended exactly when `i = 0` and the tag is `number` case-insensitively;
each column definition contains its double-quoted header name. -/
theorem c3_create_table_sql_spec (ex : Example) (table_name : String) (N : Nat)
    (hh : ex.table.header.length = N) (ht : ex.table.types.length = N) :
    generate_create_table_sql ex table_name
      = "CREATE TABLE IF NOT EXISTS \"" ++ table_name ++ "\" (\n  "
        ++ String.intercalate ",\n  " (createColumns ex) ++ "\n);"
    ∧ ("CREATE TABLE IF NOT EXISTS").data
        <+: (generate_create_table_sql ex table_name).data
    ∧ (createColumns ex).length = N
    ∧ (∀ i hcol ty, ex.table.header[i]? = some hcol →
        ex.table.types[i]? = some ty →
        (createColumns ex)[i]?
          = some ("\"" ++ hcol ++ "\" " ++ spec_type_table ty.toLower
              ++ (if i = 0 ∧ ty.toLower = "number" then " PRIMARY KEY" else "")))
    ∧ (∀ i hcol, ex.table.header[i]? = some hcol → i < N →
        ∃ col, (createColumns ex)[i]? = some col
          ∧ ("\"" ++ hcol ++ "\"").data <+: col.data) := by
  refine ⟨rfl, ?_, ?_, ?_, ?_⟩
  · unfold generate_create_table_sql
    refine prefix_data_append _ _ _ ?_
    refine prefix_data_append _ _ _ ?_
    refine prefix_data_append _ _ _ ?_
    refine prefix_data_append _ _ _ ?_
    decide
  · simp [createColumns_length, hh, ht]
  · intro i hcol ty h1 h2
    rw [createColumns_getElem ex i hcol ty h1 h2, get_sql_type_eq_spec]
    by_cases hc : (i = 0 ∧ ty.toLower = "number")
    · rw [if_pos hc, if_pos hc]
    · rw [if_neg hc, if_neg hc]
      rw [String.append_empty]
  · intro i hcol h1 hi
    have hil : i < ex.table.types.length := by omega
    have h2 : ex.table.types[i]? = some (ex.table.types.get ⟨i, hil⟩) := by
      rw [List.getElem?_eq_getElem hil]
      rfl
    refine ⟨_, createColumns_getElem ex i hcol _ h1 h2, ?_⟩
    by_cases hc : (i = 0 ∧ (ex.table.types.get ⟨i, hil⟩).toLower = "number")
    · rw [if_pos hc]
      have e : (("\"" ++ hcol ++ "\" "
            ++ get_sql_type (ex.table.types.get ⟨i, hil⟩)) ++ " PRIMARY KEY").data
          = ("\"" ++ hcol ++ "\" ").data
            ++ ((get_sql_type (ex.table.types.get ⟨i, hil⟩)).data
                ++ (" PRIMARY KEY" : String).data) := by
        show ((("\"" ++ hcol ++ "\" ").data
            ++ (get_sql_type (ex.table.types.get ⟨i, hil⟩)).data)
            ++ (" PRIMARY KEY" : String).data) = _
        rw [List.append_assoc]
      rw [e]
      exact quoted_name_starts hcol _
    · rw [if_neg hc]
      exact quoted_name_starts hcol _

/-- C3 witness: the theorem instantiated at the specification's concrete
scenario (four parallel header/type entries). -/
theorem c3_create_table_sql_spec_witness :
    (createColumns exC34).length = 4 :=
  (c3_create_table_sql_spec exC34 "t1" 4 rfl rfl).2.2.1

/-- C4: the INSERT generator emits exactly one statement per row, in row
order, the `i`-th statement quoting every header name and rendering the
`i`-th row's values with string values single-quote-wrapped and internal
single quotes doubled, `None` rendered as `NULL`, and any other value
stringified verbatim; at the specification's concrete scenario the single
statement is
`INSERT INTO "t1" ("id", "name", "amount", "date") VALUES ('1', 'Alice', '120.5', '2025-04-01');`. -/
theorem c4_insert_sql_spec :
    (∀ (ex : Example) (table_name : String),
        (generate_insert_sql ex table_name).length = ex.table.rows.length
        ∧ ∀ (i : Nat) (row : List Value), ex.table.rows[i]? = some row →
            (generate_insert_sql ex table_name)[i]?
              = some ("INSERT INTO \"" ++ table_name ++ "\" ("
                  ++ String.intercalate ", "
                      (ex.table.header.map (fun h => "\"" ++ h ++ "\""))
                  ++ ") VALUES ("
                  ++ String.intercalate ", " (row.map renderValue) ++ ");"))
    ∧ (∀ s, renderValue (.vstr s) = sq ++ pyReplace s sq (sq ++ sq) ++ sq)
    ∧ renderValue .vnull = "NULL"
    ∧ (∀ r, renderValue (.vother r) = r)
    ∧ generate_insert_sql exC34 "t1"
      = ["INSERT INTO \"t1\" (\"id\", \"name\", \"amount\", \"date\") VALUES ("
          ++ sq ++ "1" ++ sq ++ ", " ++ sq ++ "Alice" ++ sq ++ ", "
          ++ sq ++ "120.5" ++ sq ++ ", " ++ sq ++ "2025-04-01" ++ sq ++ ");"] := by
  refine ⟨?_, fun s => rfl, rfl, fun r => rfl, by decide⟩
  intro ex tn
  constructor
  · simp [generate_insert_sql]
  · intro i row h
    unfold generate_insert_sql
    rw [List.getElem?_map, h]
    rfl

/-- C4 witness: the row-count clause instantiated at the concrete
scenario. -/
theorem c4_insert_sql_spec_witness :
    (generate_insert_sql exC34 "t1").length = exC34.table.rows.length :=
  (c4_insert_sql_spec.1 exC34 "t1").1

/-- C6: for a WikiSQL-style example with parallel `header`/`types` of
length `N`, the from-example schema loader emits one table whose name is
`sql.table_id` when present and exactly `"table"` otherwise, whose
`foreign_keys` list is empty, and whose `N` columns map each
`(header[i], types[i])` pair to the fixed-table type of the lower-cased
tag, `not_null` always true, and `is_primary_key` true exactly for index
0 with tag `number`. -/
theorem c6_load_schema_spec (ex : Example) (N : Nat)
    (hh : ex.table.header.length = N) (ht : ex.table.types.length = N) :
    (load_schema ex).tables.length = 1
    ∧ ∀ tbl, (load_schema ex).tables[0]? = some tbl →
        tbl.name = (ex.sql.table_id).getD "table"
        ∧ tbl.foreign_keys = []
        ∧ tbl.columns.length = N
        ∧ ∀ (i : Nat) (hcol ty : String), ex.table.header[i]? = some hcol →
            ex.table.types[i]? = some ty →
            tbl.columns[i]? = some (⟨hcol, spec_type_table ty.toLower, true,
              decide (i = 0 ∧ ty.toLower = "number")⟩ : ColumnSchema) := by
  refine ⟨rfl, ?_⟩
  intro tbl htbl
  have hc : (⟨(ex.sql.table_id).getD "table", get_column_info ex, []⟩ : TableSchema)
      = tbl := Option.some.inj htbl
  subst hc
  refine ⟨rfl, rfl, ?_, ?_⟩
  · simp [get_column_info_length, hh, ht]
  · intro i hcol ty h1 h2
    rw [get_column_info_getElem ex i hcol ty h1 h2,
      wikisql_type_to_sqlite_eq_spec]

/-- C6 witness: the theorem instantiated at a concrete example with no
`sql.table_id`. -/
theorem c6_load_schema_spec_witness :
    (load_schema exC6).tables.length = 1 :=
  (c6_load_schema_spec exC6 2 rfl rfl).1

end McpSqlify
